import Mathlib

/-
  Verification development for the clean-count daily reminder core.

  The definitions below are a shallow embedding of:
    - src/src/notifications/dailyReminder.ts  (scheduler, content, base computation)
    - src/utils/time (diffFromStart)          (elapsed-time breakdown)
    - src/content/affirmations                (fixed-pool affirmation selector)
    - src/src/storage/storage.ts              (loadAppData / isAppData)

  Modelling conventions:
    - JS `Date` values are modelled as local wall-clock date-times
      (calendar day number plus hour/minute/second/millisecond fields);
      comparisons between dates use the linearisation `key`, which agrees
      with epoch-millisecond order under a fixed UTC offset.
    - Epoch milliseconds are `Int`; an unparseable ISO string (NaN date) is
      modelled as `Option Int = none`.
    - The expo-notifications platform adapter is modelled by an explicit
      environment of booleans saying which platform operations succeed, and
      the device notification store is an explicit list of scheduled
      notifications threaded through the calls.  A rejected platform promise
      is an `Except.error`.
-/

namespace CleanCount

/-- Local wall-clock date-time: `day` is a local calendar-day number (days
since an arbitrary epoch, so `setDate(getDate()+1)` is `day + 1`), with the
local time-of-day fields alongside.  Models a JS `Date` in the local zone. -/
structure LocalDateTime where
  day : Int
  hour : Int
  minute : Int
  second : Int
  ms : Int
deriving DecidableEq, Repr

/-- Linearisation of a local date-time in milliseconds; under a fixed UTC
offset this orders date-times exactly as JS epoch-millisecond comparison. -/
def LocalDateTime.key (d : LocalDateTime) : Int :=
  d.day * 86400000 + d.hour * 3600000 + d.minute * 60000 + d.second * 1000 + d.ms

/-- A date-time whose time-of-day fields are in their calendar ranges. -/
def LocalDateTime.valid (d : LocalDateTime) : Prop :=
  0 ≤ d.hour ∧ d.hour ≤ 23 ∧ 0 ≤ d.minute ∧ d.minute ≤ 59 ∧
    0 ≤ d.second ∧ d.second ≤ 59 ∧ 0 ≤ d.ms ∧ d.ms ≤ 999

instance (d : LocalDateTime) : Decidable d.valid := by
  unfold LocalDateTime.valid
  exact inferInstance

/-- Epoch milliseconds of a local date-time, given the fixed UTC offset of
the local zone in milliseconds (`local = utc + offset`). -/
def LocalDateTime.toEpochMs (tzOffsetMs : Int) (d : LocalDateTime) : Int :=
  d.key - tzOffsetMs

/- Constants from src/src/notifications/dailyReminder.ts -/

def DAILY_REMINDER_CHANNEL_ID : String := "daily-clean-reminders"
def DAILY_REMINDER_KIND : String := "daily-clean-reminder"
def DAYS_TO_SCHEDULE : Nat := 365
def DEFAULT_DAILY_REMINDER_HOUR : Int := 9
def DEFAULT_DAILY_REMINDER_MINUTE : Int := 0

def AFFIRMATION_0 : String := "Breathe. You are doing enough for today."
def AFFIRMATION_1 : String := "Small steady steps still move you forward."
def AFFIRMATION_2 : String := "Your calm effort is creating real change."
def AFFIRMATION_3 : String := "You are allowed to go gently and keep going."
def AFFIRMATION_4 : String := "Today counts, even if it feels quiet."
def AFFIRMATION_5 : String := "You are building trust with yourself."
def AFFIRMATION_6 : String := "One choice at a time is more than enough."
def AFFIRMATION_7 : String := "You are safe to keep this simple."
def AFFIRMATION_8 : String := "A gentle pace is still progress."
def AFFIRMATION_9 : String := "You are meeting this day with strength."

/-- The fixed affirmation pool (same literal list in dailyReminder.ts and in
src/content/affirmations). -/
def GENTLE_AFFIRMATIONS : List String :=
  [AFFIRMATION_0, AFFIRMATION_1, AFFIRMATION_2, AFFIRMATION_3, AFFIRMATION_4,
   AFFIRMATION_5, AFFIRMATION_6, AFFIRMATION_7, AFFIRMATION_8, AFFIRMATION_9]

/-- Fallback affirmation for an empty pool. -/
def DEFAULT_GENTLE_AFFIRMATION : String := "One steady day at a time."

/- Reminder-time validation and normalisation (dailyReminder.ts lines 47-59).
An absent (`undefined`) hour/minute is `none`. -/

def isValidReminderHour : Option Int → Bool
  | some h => decide (0 ≤ h ∧ h ≤ 23)
  | none => false

def isValidReminderMinute : Option Int → Bool
  | some m => decide (0 ≤ m ∧ m ≤ 59)
  | none => false

structure ReminderTime where
  hour : Int
  minute : Int
deriving DecidableEq, Repr

def normalizeReminderTime (hour? minute? : Option Int) : ReminderTime :=
  { hour := if isValidReminderHour hour? then hour?.getD DEFAULT_DAILY_REMINDER_HOUR
            else DEFAULT_DAILY_REMINDER_HOUR
    minute := if isValidReminderMinute minute? then minute?.getD DEFAULT_DAILY_REMINDER_MINUTE
              else DEFAULT_DAILY_REMINDER_MINUTE }

/-- Model of `getNextReminderBase` (dailyReminder.ts lines 70-77):
`next = new Date(from); next.setHours(hour, minute, 0, 0);
 if (next <= from) next.setDate(next.getDate() + 1);`. -/
def getNextReminderBase (fromDate : LocalDateTime) (hour minute : Int) : LocalDateTime :=
  let next : LocalDateTime := ⟨fromDate.day, hour, minute, 0, 0⟩
  if next.key ≤ fromDate.key then ⟨fromDate.day + 1, hour, minute, 0, 0⟩ else next

/-- Model of `getAffirmation` (dailyReminder.ts lines 79-84): indexes the
session affirmation order by `dayCount % length`, with a fallback for an
empty pool.  The session order (post-shuffle) is passed explicitly. -/
def getAffirmation (dayCount : Nat) (session : List String) : String :=
  if h : session = [] then DEFAULT_GENTLE_AFFIRMATION
  else session.get ⟨dayCount % session.length, Nat.mod_lt _ (List.length_pos.mpr h)⟩

/-- Model of `getAffirmationForDayNumber` (src/content/affirmations): clamps
the day number to a non-negative integer and indexes the fixed pool. -/
def getAffirmationForDayNumber (dayNumber : Int) : String :=
  if h : GENTLE_AFFIRMATIONS = [] then DEFAULT_GENTLE_AFFIRMATION
  else GENTLE_AFFIRMATIONS.get
    ⟨(max 0 dayNumber).toNat % GENTLE_AFFIRMATIONS.length,
     Nat.mod_lt _ (List.length_pos.mpr h)⟩

/- Elapsed-time breakdown (src/utils/time `diffFromStart`). -/

structure TimeDiff where
  totalDays : Int
  totalHours : Int
  monthsApprox : Int
  weeks : Int
  remainingDays : Int
deriving DecidableEq, Repr

/-- Model of `diffFromStart(startISO, now)`: `startMs = none` models an
unparseable start ISO string (NaN `getTime`, so `rawMs` is not finite and
`totalMs` falls back to 0); otherwise `totalMs = max(0, now - start)`. -/
def diffFromStart (startMs : Option Int) (nowMs : Int) : TimeDiff :=
  let totalMs : Int :=
    match startMs with
    | none => 0
    | some s => max 0 (nowMs - s)
  { totalDays := totalMs / 86400000
    totalHours := totalMs / 3600000
    monthsApprox := totalMs / 86400000 / 30
    weeks := totalMs / 86400000 / 7
    remainingDays := totalMs / 86400000 % 7 }

/- Reminder content (dailyReminder.ts lines 86-98). -/

structure ReminderContent where
  title : String
  body : String
  dayCount : Int
deriving DecidableEq, Repr

/-- Model of `buildReminderContent(cleanStartISO, triggerDate, displayName)`;
the trigger date is given by its epoch milliseconds, and the session
affirmation order is passed explicitly.  The source's
`displayName ? ... : ...` is a JS truthiness test: an absent display name
and the empty string (the only falsy string) both yield the bare
affirmation. -/
def buildReminderContent (cleanStartMs : Option Int) (triggerMs : Int)
    (displayName : Option String) (session : List String) : ReminderContent :=
  let dayCount := (diffFromStart cleanStartMs triggerMs).totalDays
  let safeDayCount := max 0 dayCount
  let title :=
    if safeDayCount = 1 then "1 day clean" else toString safeDayCount ++ " days clean"
  let affirmation := getAffirmation safeDayCount.toNat session
  let body :=
    match displayName with
    | some name =>
      if name.isEmpty then affirmation
      else affirmation ++ " Keep going, " ++ name ++ "."
    | none => affirmation
  { title := title, body := body, dayCount := safeDayCount }

/- Platform notification store and adapter model. -/

/-- One scheduled notification in the OS notification store.  `kind` is the
`content.data.kind` payload marker (`none` models notifications with no
`data` or no `kind`, e.g. notifications belonging to other features). -/
structure ScheduledNotif where
  kind : Option String
  dayCount : Int
  trigger : LocalDateTime
  title : String
  body : String
  channelId : Option String
deriving DecidableEq, Repr

/-- A notification carrying this feature's kind marker. -/
def isOwnReminder (n : ScheduledNotif) : Bool :=
  n.kind == some DAILY_REMINDER_KIND

/-- A rejected platform promise observable across the scheduler boundary. -/
inductive SyncError where
  | channelSetup
  | cancelEnumeration
  | scheduleSubmission (offset : Nat)
deriving DecidableEq, Repr

/-- Platform-adapter behaviour for one `sync` invocation: which platform the
call runs on, the module-level `configured` flag at entry, the permission
state, which platform operations succeed, the observed "now", the fixed UTC
offset of the local zone, and the session affirmation order in effect. -/
structure SyncEnv where
  supported : Bool
  isAndroid : Bool
  configured : Bool
  granted : Bool
  requestGranted : Bool
  channelOk : Bool
  listOk : Bool
  scheduleOk : Nat → Bool
  now : LocalDateTime
  tzOffsetMs : Int
  session : List String

/-- The options object of `syncDailyReminderNotificationsAsync`
(dailyReminder.ts lines 165-171), with the clean-start ISO string replaced
by its parse result in epoch milliseconds (`none` = unparseable). -/
structure SyncOptions where
  enabled : Bool
  cleanStartMs : Option Int
  displayName : Option String
  reminderHour : Option Int
  reminderMinute : Option Int

/-- Model of `configureNotificationsAsync` (dailyReminder.ts lines 100-132):
no-op once configured or when the module is unavailable; on Android the
channel registration can fail at the platform and the rejection propagates
(there is no catch in the source). -/
def configureNotificationsAsync (e : SyncEnv) : Except SyncError Unit :=
  if e.configured then .ok ()
  else if !e.supported then .ok ()
  else if e.isAndroid && !e.channelOk then .error .channelSetup
  else .ok ()

/-- Model of `ensureNotificationsPermissionAsync` (dailyReminder.ts lines
134-147): false when unsupported; otherwise the current grant, falling back
to the result of a fresh request. -/
def ensureNotificationsPermissionAsync (e : SyncEnv) : Bool :=
  if !e.supported then false
  else if e.granted then true
  else e.requestGranted

/-- Model of `cancelDailyReminderNotificationsAsync` (dailyReminder.ts lines
149-163): no-op when unsupported; enumerating the scheduled notifications
can fail (rejection propagates); otherwise every own-kind notification is
cancelled, leaving exactly the non-own-kind ones. -/
def cancelDailyReminderNotificationsAsync (e : SyncEnv) (st : List ScheduledNotif) :
    Except SyncError (List ScheduledNotif) :=
  if !e.supported then .ok st
  else if !e.listOk then .error .cancelEnumeration
  else .ok (st.filter fun n => !isOwnReminder n)

/-- Calendar-day addition on the trigger base (dailyReminder.ts lines
202-204: `trigger.setDate(base.getDate() + offset)`). -/
def addDays (base : LocalDateTime) (offset : Nat) : LocalDateTime :=
  { base with day := base.day + offset }

/-- The base next-occurrence instant computed inside `sync` (dailyReminder.ts
lines 197-199) from the observed now and the normalised reminder time. -/
def syncBase (e : SyncEnv) (o : SyncOptions) : LocalDateTime :=
  let reminderTime := normalizeReminderTime o.reminderHour o.reminderMinute
  getNextReminderBase e.now reminderTime.hour reminderTime.minute

/-- The notification submitted for one offset of the scheduling loop
(dailyReminder.ts lines 202-224). -/
def scheduledNotifAt (e : SyncEnv) (o : SyncOptions) (base : LocalDateTime)
    (offset : Nat) : ScheduledNotif :=
  let trigger := addDays base offset
  let content := buildReminderContent o.cleanStartMs (trigger.toEpochMs e.tzOffsetMs)
    o.displayName e.session
  { kind := some DAILY_REMINDER_KIND
    dayCount := content.dayCount
    trigger := trigger
    title := content.title
    body := content.body
    channelId := if e.isAndroid then some DAILY_REMINDER_CHANNEL_ID else none }

/-- The batch of 365 notifications submitted by an enabled sync
(dailyReminder.ts lines 202-224), one per offset `0..364`. -/
def scheduledBatch (e : SyncEnv) (o : SyncOptions) (base : LocalDateTime) :
    List ScheduledNotif :=
  (List.range DAYS_TO_SCHEDULE).map (scheduledNotifAt e o base)

/-- Outcome of one sync call: the settled result (a boolean plus the final
notification store, or a rejection), and whether
`ensureNotificationsPermissionAsync` was invoked during the call. -/
structure SyncOutcome where
  result : Except SyncError (Bool × List ScheduledNotif)
  permissionChecked : Bool
deriving Repr

/-- Model of `syncDailyReminderNotificationsAsync` (dailyReminder.ts lines
173-228).  Unsupported platform: resolve false.  Then configure and cancel
(their failures reject).  Disabled: resolve true.  Permission missing:
resolve false.  Otherwise submit the 365-notification batch via
`Promise.all`: if any submission fails the call rejects with the first
failing offset, else it resolves true with the batch appended. -/
def syncDailyReminderNotificationsAsync (e : SyncEnv) (o : SyncOptions)
    (st : List ScheduledNotif) : SyncOutcome :=
  if !e.supported then ⟨.ok (false, st), false⟩
  else
    match configureNotificationsAsync e with
    | .error err => ⟨.error err, false⟩
    | .ok _ =>
      match cancelDailyReminderNotificationsAsync e st with
      | .error err => ⟨.error err, false⟩
      | .ok st1 =>
        if !o.enabled then ⟨.ok (true, st1), false⟩
        else if !ensureNotificationsPermissionAsync e then ⟨.ok (false, st1), true⟩
        else
          match (List.range DAYS_TO_SCHEDULE).find? (fun offset => !e.scheduleOk offset) with
          | some offset => ⟨.error (.scheduleSubmission offset), true⟩
          | none => ⟨.ok (true, st1 ++ scheduledBatch e o (syncBase e o)), true⟩

/- Persisted app data (src/src/storage/storage.ts). -/

/-- A parsed JSON value.  `jint` is a number for which `Number.isInteger`
holds; `jnum` stands for any non-integer number (the validator only ever
asks whether a number is an integer in range, so the exact value of a
non-integer number is irrelevant). -/
inductive JVal where
  | jnull
  | jbool (b : Bool)
  | jint (n : Int)
  | jnum
  | jstr (s : String)
  | jarr (elems : List JVal)
  | jobj (fields : List (String × JVal))

/-- JS property access `value[key]`: `none` models `undefined`. -/
def JVal.getField : JVal → String → Option JVal
  | .jobj fields, key => fields.lookup key
  | _, _ => none

/-- Model of `isRecord`: a non-null object that is not an array. -/
def jvalIsRecord : JVal → Bool
  | .jobj _ => true
  | _ => false

def jIsString : Option JVal → Bool
  | some (.jstr _) => true
  | _ => false

def jIsArray : Option JVal → Bool
  | some (.jarr _) => true
  | _ => false

def jIsBool : Option JVal → Bool
  | some (.jbool _) => true
  | _ => false

def jIsRecordOpt : Option JVal → Bool
  | some v => jvalIsRecord v
  | _ => false

def jOptString (v : Option JVal) : Bool :=
  v.isNone || jIsString v

def jOptBool (v : Option JVal) : Bool :=
  v.isNone || jIsBool v

/-- Model of storage.ts `isValidReminderHour` on a JSON value:
a number that is an integer in `[0, 23]`. -/
def jvalIsValidReminderHour : JVal → Bool
  | .jint n => decide (0 ≤ n ∧ n ≤ 23)
  | _ => false

/-- Model of storage.ts `isValidReminderMinute` on a JSON value. -/
def jvalIsValidReminderMinute : JVal → Bool
  | .jint n => decide (0 ≤ n ∧ n ≤ 59)
  | _ => false

def jOptValidReminderHour (v : Option JVal) : Bool :=
  match v with
  | none => true
  | some w => jvalIsValidReminderHour w

def jOptValidReminderMinute (v : Option JVal) : Bool :=
  match v with
  | none => true
  | some w => jvalIsValidReminderMinute w

def kTimeDisplayDays : String := "days"
def kTimeDisplayWeeks : String := "weeks"
def kTimeDisplayHours : String := "hours"
def kTimeDisplayMonths : String := "months"
def kThemeSystem : String := "system"
def kThemeLight : String := "light"
def kThemeDark : String := "dark"
def kStateSteady : String := "steady"
def kStateWorn : String := "worn"
def kStateStruggling : String := "struggling"

def VALID_TIME_DISPLAY_PREFERENCES : List String :=
  [kTimeDisplayDays, kTimeDisplayWeeks, kTimeDisplayHours, kTimeDisplayMonths]

def VALID_THEME_PREFERENCES : List String :=
  [kThemeSystem, kThemeLight, kThemeDark]

def VALID_CHECK_IN_STATES : List String :=
  [kStateSteady, kStateWorn, kStateStruggling]

/-- Undefined, or a string contained in the given list. -/
def jOptStringIn (valid : List String) (v : Option JVal) : Bool :=
  match v with
  | none => true
  | some (.jstr s) => valid.contains s
  | some _ => false

/-- A string contained in the given list. -/
def jIsStringIn (valid : List String) (v : Option JVal) : Bool :=
  match v with
  | some (.jstr s) => valid.contains s
  | _ => false

/-- Placeholder default for `getD` reads of fields the validator has already
guaranteed to be present; never the returned value on any validated input. -/
def UNREACHABLE_STRING : String := ""

/- Field-name constants of the persisted JSON layout. -/
def kCleanStartISO : String := "cleanStartISO"
def kDisplayName : String := "displayName"
def kCheckIns : String := "checkIns"
def kSettings : String := "settings"
def kHistory : String := "history"
def kHardDayModeEnabled : String := "hardDayModeEnabled"
def kHardDayModeAutoSuggest : String := "hardDayModeAutoSuggest"
def kTimeDisplayPreference : String := "timeDisplayPreference"
def kThemePreference : String := "themePreference"
def kDailyReminderEnabled : String := "dailyReminderEnabled"
def kDailyReminderHour : String := "dailyReminderHour"
def kDailyReminderMinute : String := "dailyReminderMinute"
def kLastHardDaySuggestAt : String := "lastHardDaySuggestAt"
def kDateISO : String := "dateISO"
def kState : String := "state"
def kNote : String := "note"
def kArchivedCleanStartISO : String := "archivedCleanStartISO"
def kArchivedAtISO : String := "archivedAtISO"

/-- The settings block of the validator (storage.ts lines 37-54); each
conjunct is the positive form of one disjunct of the source's big
early-return condition. -/
def settingsChecksOk (sv : JVal) : Bool :=
  jIsBool (sv.getField kHardDayModeEnabled) &&
  jIsBool (sv.getField kHardDayModeAutoSuggest) &&
  jOptStringIn VALID_TIME_DISPLAY_PREFERENCES (sv.getField kTimeDisplayPreference) &&
  jOptStringIn VALID_THEME_PREFERENCES (sv.getField kThemePreference) &&
  jOptBool (sv.getField kDailyReminderEnabled) &&
  jOptValidReminderHour (sv.getField kDailyReminderHour) &&
  jOptValidReminderMinute (sv.getField kDailyReminderMinute) &&
  jOptString (sv.getField kLastHardDaySuggestAt)

/-- One check-in entry check (storage.ts lines 56-68): a record whose
`dateISO` is a string, whose `state` is a string among the valid check-in
states, and whose `note` is absent or a string. -/
def checkInOk (c : JVal) : Bool :=
  jvalIsRecord c &&
  jIsString (c.getField kDateISO) &&
  jIsStringIn VALID_CHECK_IN_STATES (c.getField kState) &&
  jOptString (c.getField kNote)

/-- One history entry check (storage.ts lines 82-87): a record whose two
archive fields are strings. -/
def historyItemOk (it : JVal) : Bool :=
  jvalIsRecord it &&
  jIsString (it.getField kArchivedCleanStartISO) &&
  jIsString (it.getField kArchivedAtISO)

def jArrElems : Option JVal → List JVal
  | some (.jarr xs) => xs
  | _ => []

/-- The optional history array check (storage.ts lines 74-87). -/
def historyOk (v : Option JVal) : Bool :=
  match v with
  | none => true
  | some (.jarr xs) => xs.all historyItemOk
  | some _ => false

/-- Model of `isAppData` (storage.ts lines 20-88), as the conjunction of the
source's sequential checks. -/
def isAppData (v : JVal) : Bool :=
  jvalIsRecord v &&
  jIsString (v.getField kCleanStartISO) &&
  jIsArray (v.getField kCheckIns) &&
  jOptString (v.getField kDisplayName) &&
  jIsRecordOpt (v.getField kSettings) &&
  settingsChecksOk ((v.getField kSettings).getD .jnull) &&
  (jArrElems (v.getField kCheckIns)).all checkInOk &&
  historyOk (v.getField kHistory)

structure CheckIn where
  dateISO : String
  state : String
  note : Option String
deriving DecidableEq, Repr

structure HistoryItem where
  archivedCleanStartISO : String
  archivedAtISO : String
deriving DecidableEq, Repr

structure AppSettings where
  hardDayModeEnabled : Bool
  hardDayModeAutoSuggest : Bool
  timeDisplayPreference : String
  themePreference : String
  dailyReminderEnabled : Bool
  dailyReminderHour : Int
  dailyReminderMinute : Int
  lastHardDaySuggestAt : Option String
deriving DecidableEq, Repr

structure AppData where
  cleanStartISO : String
  displayName : Option String
  checkIns : List CheckIn
  settings : AppSettings
  history : Option (List HistoryItem)
deriving DecidableEq, Repr

def jGetStr : Option JVal → Option String
  | some (.jstr s) => some s
  | _ => none

def jGetBool : Option JVal → Option Bool
  | some (.jbool b) => some b
  | _ => none

def jGetInt : Option JVal → Option Int
  | some (.jint n) => some n
  | _ => none

/-- The value returned by a successful `loadAppData` (storage.ts lines
119-129): the parsed object with the four defaulted settings fields filled
in via `??`.  Fields the validator guarantees present are read directly
(the `getD` fallbacks on those are unreachable after validation). -/
def extractAppData (v : JVal) : AppData :=
  let sv := (v.getField kSettings).getD .jnull
  { cleanStartISO := (jGetStr (v.getField kCleanStartISO)).getD UNREACHABLE_STRING
    displayName := jGetStr (v.getField kDisplayName)
    checkIns := (jArrElems (v.getField kCheckIns)).map fun c =>
      { dateISO := (jGetStr (c.getField kDateISO)).getD UNREACHABLE_STRING
        state := (jGetStr (c.getField kState)).getD UNREACHABLE_STRING
        note := jGetStr (c.getField kNote) }
    settings :=
      { hardDayModeEnabled := (jGetBool (sv.getField kHardDayModeEnabled)).getD false
        hardDayModeAutoSuggest := (jGetBool (sv.getField kHardDayModeAutoSuggest)).getD false
        timeDisplayPreference := (jGetStr (sv.getField kTimeDisplayPreference)).getD kTimeDisplayDays
        themePreference := (jGetStr (sv.getField kThemePreference)).getD kThemeSystem
        dailyReminderEnabled := (jGetBool (sv.getField kDailyReminderEnabled)).getD false
        dailyReminderHour := (jGetInt (sv.getField kDailyReminderHour)).getD DEFAULT_DAILY_REMINDER_HOUR
        dailyReminderMinute := (jGetInt (sv.getField kDailyReminderMinute)).getD DEFAULT_DAILY_REMINDER_MINUTE
        lastHardDaySuggestAt := jGetStr (sv.getField kLastHardDaySuggestAt) }
    history :=
      match v.getField kHistory with
      | some (.jarr xs) => some (xs.map fun it =>
          { archivedCleanStartISO := (jGetStr (it.getField kArchivedCleanStartISO)).getD UNREACHABLE_STRING
            archivedAtISO := (jGetStr (it.getField kArchivedAtISO)).getD UNREACHABLE_STRING })
      | _ => none }

/-- The raw value found under the storage key before validation:
missing (no value, or the falsy empty string), a value on which
`JSON.parse` throws (a storage-read exception lands in the same catch and
also yields null), or a parsed JSON value. -/
inductive StoredValue where
  | missing
  | notJson
  | parsed (v : JVal)

/-- Model of `loadAppData` (storage.ts lines 107-133). -/
def loadAppData : StoredValue → Option AppData
  | .missing => none
  | .notJson => none
  | .parsed v => if isAppData v then some (extractAppData v) else none

/-- A concrete display name used in concrete evaluations. -/
def NAME_SAM : String := "Sam"

/-- A concrete ISO timestamp string used in concrete evaluations. -/
def kSampleDate : String := "2024-01-01T00:00:00.000Z"

/-- A concrete stored JSON object that passes validation and omits every
defaulted settings field. -/
def sampleAppJson : JVal :=
  .jobj
    [(kCleanStartISO, .jstr kSampleDate),
     (kCheckIns, .jarr []),
     (kSettings, .jobj
       [(kHardDayModeEnabled, .jbool false),
        (kHardDayModeAutoSuggest, .jbool true)])]

/- Concrete instances used for evaluating the models on closed inputs. -/

/-- A fully healthy platform environment: supported Android device,
permission already granted, every platform operation succeeds, now is
08:30:00.000 local on day 0. -/
def envAllOk : SyncEnv :=
  { supported := true
    isAndroid := true
    configured := false
    granted := true
    requestGranted := true
    channelOk := true
    listOk := true
    scheduleOk := fun _ => true
    now := ⟨0, 8, 30, 0, 0⟩
    tzOffsetMs := 0
    session := GENTLE_AFFIRMATIONS }

/-- A healthy environment in which every individual schedule submission is
rejected by the platform. -/
def envScheduleFails : SyncEnv :=
  { envAllOk with scheduleOk := fun _ => false }

/-- Enable options: clean start at epoch 0, display name present,
reminder at 09:00. -/
def optsEnabled : SyncOptions :=
  { enabled := true
    cleanStartMs := some 0
    displayName := some NAME_SAM
    reminderHour := some 9
    reminderMinute := some 0 }

/-- The same options with the reminder moved to 10:00. -/
def optsEnabledLater : SyncOptions :=
  { optsEnabled with reminderHour := some 10 }

/-- Disable options. -/
def optsDisabled : SyncOptions :=
  { optsEnabled with enabled := false }

/-- A concrete own-kind notification present before a call. -/
def staleOwnNotif : ScheduledNotif :=
  { kind := some DAILY_REMINDER_KIND
    dayCount := 3
    trigger := ⟨1, 9, 0, 0, 0⟩
    title := AFFIRMATION_0
    body := AFFIRMATION_0
    channelId := some DAILY_REMINDER_CHANNEL_ID }

/-- A concrete notification of another feature present before a call. -/
def foreignNotif : ScheduledNotif :=
  { kind := none
    dayCount := 0
    trigger := ⟨2, 12, 0, 0, 0⟩
    title := NAME_SAM
    body := NAME_SAM
    channelId := none }

/- ===================== Theorems ===================== -/

/- Helper lemmas on the content functions. -/

lemma buildReminderContent_dayCount (cleanStartMs : Option Int) (triggerMs : Int)
    (displayName : Option String) (session : List String) :
    (buildReminderContent cleanStartMs triggerMs displayName session).dayCount =
      max 0 ((diffFromStart cleanStartMs triggerMs).totalDays) := rfl

lemma buildReminderContent_title (cleanStartMs : Option Int) (triggerMs : Int)
    (displayName : Option String) (session : List String) :
    (buildReminderContent cleanStartMs triggerMs displayName session).title =
      (if max 0 ((diffFromStart cleanStartMs triggerMs).totalDays) = 1 then "1 day clean"
       else toString (max 0 ((diffFromStart cleanStartMs triggerMs).totalDays)) ++ " days clean") := rfl

lemma buildReminderContent_body (cleanStartMs : Option Int) (triggerMs : Int)
    (displayName : Option String) (session : List String) :
    (buildReminderContent cleanStartMs triggerMs displayName session).body =
      (match displayName with
       | some name =>
          if name.isEmpty then
            getAffirmation (max 0 ((diffFromStart cleanStartMs triggerMs).totalDays)).toNat session
          else
            getAffirmation (max 0 ((diffFromStart cleanStartMs triggerMs).totalDays)).toNat session
              ++ " Keep going, " ++ name ++ "."
       | none =>
          getAffirmation (max 0 ((diffFromStart cleanStartMs triggerMs).totalDays)).toNat session) := rfl

lemma diffFromStart_totalDays_nonneg (startMs : Option Int) (nowMs : Int) :
    0 ≤ (diffFromStart startMs nowMs).totalDays := by
  unfold diffFromStart
  cases startMs with
  | none => simp
  | some s =>
    simp only
    omega

lemma getNextReminderBase_future (fromDate : LocalDateTime) (hour minute : Int)
    (hv : fromDate.valid) (hh0 : 0 ≤ hour) (hm0 : 0 ≤ minute) :
    fromDate.key < (getNextReminderBase fromDate hour minute).key := by
  obtain ⟨h1, h2, h3, h4, h5, h6, h7, h8⟩ := hv
  unfold getNextReminderBase
  simp only
  split_ifs with ha
  · simp only [LocalDateTime.key] at ha ⊢
    omega
  · simp only [LocalDateTime.key] at ha ⊢
    omega

lemma getNextReminderBase_hour (fromDate : LocalDateTime) (hour minute : Int) :
    (getNextReminderBase fromDate hour minute).hour = hour := by
  unfold getNextReminderBase
  simp only
  split_ifs <;> rfl

/-- C5: for every now instant and valid hour/minute, `getNextReminderBase`
returns now's date at hour:minute with seconds and milliseconds zeroed when
that instant is strictly after now, and otherwise that wall-clock time one
calendar day later; with a 09:00 target, an 08:30 now yields today 09:00 and
a 09:30 now yields tomorrow 09:00; and the base is always strictly after
now. -/
theorem getNextReminderBase_spec (fromDate : LocalDateTime) (hour minute : Int)
    (hv : fromDate.valid) (hh0 : 0 ≤ hour) (_hh1 : hour ≤ 23)
    (hm0 : 0 ≤ minute) (_hm1 : minute ≤ 59) :
    (getNextReminderBase fromDate hour minute =
      if fromDate.key < (LocalDateTime.mk fromDate.day hour minute 0 0).key
      then LocalDateTime.mk fromDate.day hour minute 0 0
      else LocalDateTime.mk (fromDate.day + 1) hour minute 0 0) ∧
    fromDate.key < (getNextReminderBase fromDate hour minute).key ∧
    (∀ d : Int,
      getNextReminderBase ⟨d, 8, 30, 0, 0⟩ 9 0 = ⟨d, 9, 0, 0, 0⟩ ∧
      getNextReminderBase ⟨d, 9, 30, 0, 0⟩ 9 0 = ⟨d + 1, 9, 0, 0, 0⟩) := by
  obtain ⟨h1, h2, h3, h4, h5, h6, h7, h8⟩ := hv
  refine ⟨?_, ?_, ?_⟩
  · unfold getNextReminderBase
    simp only
    split_ifs with ha hb hb
    · exfalso
      simp only [LocalDateTime.key] at ha hb
      omega
    · rfl
    · rfl
    · exfalso
      simp only [LocalDateTime.key] at ha hb
      omega
  · exact getNextReminderBase_future fromDate hour minute
      ⟨h1, h2, h3, h4, h5, h6, h7, h8⟩ hh0 hm0
  · intro d
    constructor
    · unfold getNextReminderBase
      simp only
      rw [if_neg]
      simp only [LocalDateTime.key]
      omega
    · unfold getNextReminderBase
      simp only
      rw [if_pos]
      simp only [LocalDateTime.key]
      omega

/-- Witness for C5 at a concrete 08:30 now with a 09:00 target. -/
theorem getNextReminderBase_spec_witness :
    (LocalDateTime.mk 0 8 30 0 0).valid ∧ (0 : Int) ≤ 9 ∧ (9 : Int) ≤ 23 ∧
      (0 : Int) ≤ 0 ∧ (0 : Int) ≤ 59 ∧
      (LocalDateTime.mk 0 8 30 0 0).key < (getNextReminderBase ⟨0, 8, 30, 0, 0⟩ 9 0).key :=
  ⟨by decide, by decide, by decide, by decide, by decide,
    (getNextReminderBase_spec ⟨0, 8, 30, 0, 0⟩ 9 0 (by decide) (by decide) (by decide)
      (by decide) (by decide)).2.1⟩

/-- C6 counterexample: with clean start at epoch 0, trigger at epoch 0 and
display name present, the generated body is not the affirmation suffixed
with a comma, the display name and a period — the code inserts the words
" Keep going, " instead of ", " between the affirmation and the name. -/
theorem buildReminderContent_body_counterexample :
    (buildReminderContent (some 0) 0 (some NAME_SAM) GENTLE_AFFIRMATIONS).body ≠
        getAffirmation 0 GENTLE_AFFIRMATIONS ++ ", " ++ NAME_SAM ++ "." ∧
      (buildReminderContent (some 0) 0 (some NAME_SAM) GENTLE_AFFIRMATIONS).body =
        getAffirmation 0 GENTLE_AFFIRMATIONS ++ " Keep going, " ++ NAME_SAM ++ "." := by
  constructor
  · decide
  · rfl

/-- C6 (amended): for every cleanStart, trigger and optional display name,
the content has dayCount equal to `max 0 (floor((trigger - cleanStart) / 1
day))`, title "1 day clean" exactly at dayCount 1 and "n days clean"
otherwise, and body equal to the affirmation for dayCount when the display
name is absent or present but empty (the source tests JS truthiness, and
the empty string is falsy), and to the affirmation followed by
" Keep going, ", the display name and a period when a non-empty display
name is present. -/
theorem buildReminderContent_spec (cleanStartMs : Option Int) (triggerMs : Int)
    (displayName : Option String) (session : List String) :
    (∀ s, cleanStartMs = some s →
      (buildReminderContent cleanStartMs triggerMs displayName session).dayCount =
        max 0 ((triggerMs - s) / 86400000)) ∧
    ((buildReminderContent cleanStartMs triggerMs displayName session).dayCount = 1 →
      (buildReminderContent cleanStartMs triggerMs displayName session).title = "1 day clean") ∧
    ((buildReminderContent cleanStartMs triggerMs displayName session).dayCount ≠ 1 →
      (buildReminderContent cleanStartMs triggerMs displayName session).title =
        toString (buildReminderContent cleanStartMs triggerMs displayName session).dayCount
          ++ " days clean") ∧
    (displayName = none →
      (buildReminderContent cleanStartMs triggerMs displayName session).body =
        getAffirmation
          (buildReminderContent cleanStartMs triggerMs displayName session).dayCount.toNat
          session) ∧
    (∀ name, displayName = some name → name.isEmpty = true →
      (buildReminderContent cleanStartMs triggerMs displayName session).body =
        getAffirmation
          (buildReminderContent cleanStartMs triggerMs displayName session).dayCount.toNat
          session) ∧
    (∀ name, displayName = some name → name.isEmpty = false →
      (buildReminderContent cleanStartMs triggerMs displayName session).body =
        getAffirmation
          (buildReminderContent cleanStartMs triggerMs displayName session).dayCount.toNat
          session ++ " Keep going, " ++ name ++ ".") := by
  refine ⟨?_, ?_, ?_, ?_, ?_, ?_⟩
  · intro s hs
    subst hs
    rw [buildReminderContent_dayCount]
    unfold diffFromStart
    simp only
    omega
  · intro h1
    rw [buildReminderContent_dayCount] at h1
    rw [buildReminderContent_title, if_pos h1]
  · intro h1
    rw [buildReminderContent_dayCount] at h1
    rw [buildReminderContent_title, if_neg h1, buildReminderContent_dayCount]
  · intro hn
    subst hn
    rw [buildReminderContent_body, buildReminderContent_dayCount]
  · intro name hn hemp
    subst hn
    rw [buildReminderContent_body, buildReminderContent_dayCount]
    simp only [hemp, if_true]
  · intro name hn hemp
    subst hn
    rw [buildReminderContent_body, buildReminderContent_dayCount]
    simp only [hemp, Bool.false_eq_true, if_false]

/-- Witness for C6 (amended) at dayCount 1 with a non-empty display name. -/
theorem buildReminderContent_spec_witness :
    NAME_SAM.isEmpty = false ∧
      (buildReminderContent (some 0) 86400000 (some NAME_SAM) GENTLE_AFFIRMATIONS).dayCount =
        max 0 ((86400000 - 0) / 86400000) ∧
      (buildReminderContent (some 0) 86400000 (some NAME_SAM) GENTLE_AFFIRMATIONS).body =
        getAffirmation
          (buildReminderContent (some 0) 86400000 (some NAME_SAM)
            GENTLE_AFFIRMATIONS).dayCount.toNat
          GENTLE_AFFIRMATIONS ++ " Keep going, " ++ NAME_SAM ++ "." :=
  ⟨rfl,
    (buildReminderContent_spec (some 0) 86400000 (some NAME_SAM) GENTLE_AFFIRMATIONS).1 0 rfl,
    (buildReminderContent_spec (some 0) 86400000 (some NAME_SAM)
      GENTLE_AFFIRMATIONS).2.2.2.2.2 NAME_SAM rfl rfl⟩

/-- C7: when now is at or after the start, totalDays is the floor of the
elapsed milliseconds over one day, weeks is totalDays div 7 and
remainingDays is totalDays mod 7; when now precedes the start or the start
is unparseable every field is 0; no field is ever negative; and the spec's
scenario (start 2024-01-01T12:00:00Z = epoch 1704110400000 ms, now
2024-01-10T08:00:00Z = epoch 1704873600000 ms) yields totalDays 8, weeks 1,
remainingDays 1. -/
theorem diffFromStart_spec (startMs : Option Int) (nowMs : Int) :
    (∀ s, startMs = some s → s ≤ nowMs →
      (diffFromStart startMs nowMs).totalDays = (nowMs - s) / 86400000 ∧
      (diffFromStart startMs nowMs).weeks = (diffFromStart startMs nowMs).totalDays / 7 ∧
      (diffFromStart startMs nowMs).remainingDays =
        (diffFromStart startMs nowMs).totalDays % 7) ∧
    (∀ s, startMs = some s → nowMs < s →
      diffFromStart startMs nowMs = ⟨0, 0, 0, 0, 0⟩) ∧
    (startMs = none → diffFromStart startMs nowMs = ⟨0, 0, 0, 0, 0⟩) ∧
    (0 ≤ (diffFromStart startMs nowMs).totalDays ∧
     0 ≤ (diffFromStart startMs nowMs).totalHours ∧
     0 ≤ (diffFromStart startMs nowMs).monthsApprox ∧
     0 ≤ (diffFromStart startMs nowMs).weeks ∧
     0 ≤ (diffFromStart startMs nowMs).remainingDays) ∧
    (diffFromStart (some 1704110400000) 1704873600000).totalDays = 8 ∧
    (diffFromStart (some 1704110400000) 1704873600000).weeks = 1 ∧
    (diffFromStart (some 1704110400000) 1704873600000).remainingDays = 1 := by
  refine ⟨?_, ?_, ?_, ?_, by decide, by decide, by decide⟩
  · intro s hs hle
    subst hs
    have hm : max 0 (nowMs - s) = nowMs - s := max_eq_right (by omega)
    refine ⟨?_, ?_, ?_⟩
    · show max 0 (nowMs - s) / 86400000 = (nowMs - s) / 86400000
      rw [hm]
    · show max 0 (nowMs - s) / 86400000 / 7 = max 0 (nowMs - s) / 86400000 / 7
      rfl
    · show max 0 (nowMs - s) / 86400000 % 7 = max 0 (nowMs - s) / 86400000 % 7
      rfl
  · intro s hs hlt
    subst hs
    unfold diffFromStart
    simp only [TimeDiff.mk.injEq]
    refine ⟨?_, ?_, ?_, ?_, ?_⟩ <;> omega
  · intro hn
    subst hn
    unfold diffFromStart
    simp only [TimeDiff.mk.injEq]
    norm_num
  · unfold diffFromStart
    cases startMs with
    | none => simp
    | some s =>
      simp only
      refine ⟨?_, ?_, ?_, ?_, ?_⟩ <;> omega

/-- Witness for C7 on the spec's end-to-end scenario. -/
theorem diffFromStart_spec_witness :
    (some (1704110400000 : Int) : Option Int) = some 1704110400000 ∧
      (1704110400000 : Int) ≤ 1704873600000 ∧
      (diffFromStart (some 1704110400000) 1704873600000).totalDays =
        (1704873600000 - 1704110400000) / 86400000 :=
  ⟨rfl, by decide,
    ((diffFromStart_spec (some 1704110400000) 1704873600000).1 1704110400000 rfl
      (by decide)).1⟩

/-- C8: the affirmation selector indexes the session order at the day index
modulo the pool length, is periodic with period the pool length (10 for the
fixed pool, both for the session selector and for the fixed-pool selector),
and returns the fixed fallback string on an empty pool; indexing is always
in bounds by construction. -/
theorem getAffirmation_spec :
    (∀ (dayCount : Nat) (session : List String) (h : session ≠ []),
      getAffirmation dayCount session =
        session.get ⟨dayCount % session.length, Nat.mod_lt _ (List.length_pos.mpr h)⟩) ∧
    (∀ (dayCount : Nat) (session : List String),
      getAffirmation (dayCount + session.length) session = getAffirmation dayCount session) ∧
    (∀ dayCount : Nat, getAffirmation dayCount [] = DEFAULT_GENTLE_AFFIRMATION) ∧
    GENTLE_AFFIRMATIONS.length = 10 ∧
    (∀ dayCount : Nat,
      getAffirmation (dayCount + 10) GENTLE_AFFIRMATIONS =
        getAffirmation dayCount GENTLE_AFFIRMATIONS) ∧
    (∀ d : Int, 0 ≤ d →
      getAffirmationForDayNumber (d + 10) = getAffirmationForDayNumber d) := by
  have hlen : GENTLE_AFFIRMATIONS.length = 10 := rfl
  have hget : ∀ (dayCount : Nat) (session : List String) (h : session ≠ []),
      getAffirmation dayCount session =
        session.get ⟨dayCount % session.length, Nat.mod_lt _ (List.length_pos.mpr h)⟩ := by
    intro dayCount session h
    unfold getAffirmation
    rw [dif_neg h]
  have hper : ∀ (dayCount : Nat) (session : List String),
      getAffirmation (dayCount + session.length) session = getAffirmation dayCount session := by
    intro dayCount session
    by_cases h : session = []
    · subst h
      rfl
    · rw [hget _ _ h, hget _ _ h]
      congr 1
      exact Fin.ext (by simp [Nat.add_mod_right])
  refine ⟨hget, hper, ?_, hlen, ?_, ?_⟩
  · intro dayCount
    rfl
  · intro dayCount
    have := hper dayCount GENTLE_AFFIRMATIONS
    rwa [hlen] at this
  · intro d hd
    unfold getAffirmationForDayNumber
    rw [dif_neg (by decide : ¬ GENTLE_AFFIRMATIONS = [])]
    rw [dif_neg (by decide : ¬ GENTLE_AFFIRMATIONS = [])]
    congr 1
    refine Fin.ext ?_
    show (max 0 (d + 10)).toNat % GENTLE_AFFIRMATIONS.length =
      (max 0 d).toNat % GENTLE_AFFIRMATIONS.length
    rw [hlen]
    omega

/-- Witness for C8: periodicity at day index 3 over the fixed pool order. -/
theorem getAffirmation_spec_witness :
    GENTLE_AFFIRMATIONS ≠ [] ∧
      getAffirmation 3 GENTLE_AFFIRMATIONS =
        GENTLE_AFFIRMATIONS.get
          ⟨3 % GENTLE_AFFIRMATIONS.length,
           Nat.mod_lt _ (List.length_pos.mpr (by decide))⟩ :=
  ⟨by decide, getAffirmation_spec.1 3 GENTLE_AFFIRMATIONS (by decide)⟩

/- Helper lemmas on the scheduler model. -/

lemma configure_ok (e : SyncEnv) (hch : e.channelOk = true) :
    configureNotificationsAsync e = .ok () := by
  unfold configureNotificationsAsync
  cases hc : e.configured <;> cases hs : e.supported <;> cases ha : e.isAndroid <;>
    simp [hc, hs, ha, hch]

lemma cancel_ok (e : SyncEnv) (st : List ScheduledNotif) (hsupp : e.supported = true)
    (hlist : e.listOk = true) :
    cancelDailyReminderNotificationsAsync e st =
      .ok (st.filter fun n => !isOwnReminder n) := by
  unfold cancelDailyReminderNotificationsAsync
  simp [hsupp, hlist]

lemma ensurePermission_granted (e : SyncEnv) (hsupp : e.supported = true)
    (hgr : e.granted = true) : ensureNotificationsPermissionAsync e = true := by
  unfold ensureNotificationsPermissionAsync
  simp [hsupp, hgr]

lemma find?_schedule_none (e : SyncEnv) (hsched : ∀ offset, e.scheduleOk offset = true) :
    (List.range DAYS_TO_SCHEDULE).find? (fun offset => !e.scheduleOk offset) = none := by
  rw [List.find?_eq_none]
  intro x _
  simp [hsched x]

lemma sync_disable_eq (e : SyncEnv) (o : SyncOptions) (st : List ScheduledNotif)
    (hsupp : e.supported = true) (hch : e.channelOk = true) (hlist : e.listOk = true)
    (hen : o.enabled = false) :
    syncDailyReminderNotificationsAsync e o st =
      ⟨.ok (true, st.filter fun n => !isOwnReminder n), false⟩ := by
  unfold syncDailyReminderNotificationsAsync
  rw [configure_ok e hch, cancel_ok e st hsupp hlist]
  simp [hsupp, hen]

lemma sync_enable_eq (e : SyncEnv) (o : SyncOptions) (st : List ScheduledNotif)
    (hsupp : e.supported = true) (hch : e.channelOk = true) (hlist : e.listOk = true)
    (hsched : ∀ offset, e.scheduleOk offset = true)
    (hperm : ensureNotificationsPermissionAsync e = true) (hen : o.enabled = true) :
    syncDailyReminderNotificationsAsync e o st =
      ⟨.ok (true, (st.filter fun n => !isOwnReminder n) ++
          scheduledBatch e o (syncBase e o)), true⟩ := by
  unfold syncDailyReminderNotificationsAsync
  rw [configure_ok e hch, cancel_ok e st hsupp hlist, find?_schedule_none e hsched]
  simp [hsupp, hen, hperm]

lemma filter_own_of_filter_not_own (st : List ScheduledNotif) :
    (st.filter fun n => !isOwnReminder n).filter isOwnReminder = [] := by
  induction st with
  | nil => rfl
  | cons a t ih =>
    by_cases ha : isOwnReminder a <;> simp [List.filter_cons, ha, ih]

lemma scheduledNotifAt_own (e : SyncEnv) (o : SyncOptions) (base : LocalDateTime)
    (offset : Nat) : isOwnReminder (scheduledNotifAt e o base offset) = true := rfl

lemma scheduledBatch_mem (e : SyncEnv) (o : SyncOptions) (base : LocalDateTime)
    (n : ScheduledNotif) (hn : n ∈ scheduledBatch e o base) :
    isOwnReminder n = true ∧
      ∃ offset, offset < DAYS_TO_SCHEDULE ∧ n = scheduledNotifAt e o base offset := by
  unfold scheduledBatch at hn
  rw [List.mem_map] at hn
  obtain ⟨offset, hoff, hno⟩ := hn
  rw [List.mem_range] at hoff
  subst hno
  exact ⟨scheduledNotifAt_own e o base offset, offset, hoff, rfl⟩

lemma scheduledBatch_filter_own (e : SyncEnv) (o : SyncOptions) (base : LocalDateTime) :
    (scheduledBatch e o base).filter isOwnReminder = scheduledBatch e o base := by
  rw [List.filter_eq_self]
  intro n hn
  exact (scheduledBatch_mem e o base n hn).1

lemma scheduledNotifAt_trigger (e : SyncEnv) (o : SyncOptions) (base : LocalDateTime)
    (offset : Nat) : (scheduledNotifAt e o base offset).trigger = addDays base offset := rfl

lemma addDays_key (base : LocalDateTime) (offset : Nat) :
    (addDays base offset).key = base.key + offset * 86400000 := by
  unfold addDays LocalDateTime.key
  simp only
  ring

lemma addDays_hour (base : LocalDateTime) (offset : Nat) :
    (addDays base offset).hour = base.hour := rfl

lemma normalizeReminderTime_range (hour? minute? : Option Int) :
    0 ≤ (normalizeReminderTime hour? minute?).hour ∧
      (normalizeReminderTime hour? minute?).hour ≤ 23 ∧
      0 ≤ (normalizeReminderTime hour? minute?).minute ∧
      (normalizeReminderTime hour? minute?).minute ≤ 59 := by
  unfold normalizeReminderTime
  constructor
  · cases hour? with
    | none => simp [isValidReminderHour, DEFAULT_DAILY_REMINDER_HOUR]
    | some h =>
      by_cases hh : 0 ≤ h ∧ h ≤ 23 <;>
        simp [isValidReminderHour, hh, DEFAULT_DAILY_REMINDER_HOUR]
  constructor
  · cases hour? with
    | none => simp [isValidReminderHour, DEFAULT_DAILY_REMINDER_HOUR]
    | some h =>
      by_cases hh : 0 ≤ h ∧ h ≤ 23 <;>
        simp [isValidReminderHour, hh, DEFAULT_DAILY_REMINDER_HOUR]
  constructor
  · cases minute? with
    | none => simp [isValidReminderMinute, DEFAULT_DAILY_REMINDER_MINUTE]
    | some m =>
      by_cases hm : 0 ≤ m ∧ m ≤ 59 <;>
        simp [isValidReminderMinute, hm, DEFAULT_DAILY_REMINDER_MINUTE]
  · cases minute? with
    | none => simp [isValidReminderMinute, DEFAULT_DAILY_REMINDER_MINUTE]
    | some m =>
      by_cases hm : 0 ≤ m ∧ m ≤ 59 <;>
        simp [isValidReminderMinute, hm, DEFAULT_DAILY_REMINDER_MINUTE]

lemma syncBase_future (e : SyncEnv) (o : SyncOptions) (hnow : e.now.valid) :
    e.now.key < (syncBase e o).key := by
  have hb := normalizeReminderTime_range o.reminderHour o.reminderMinute
  exact getNextReminderBase_future e.now _ _ hnow hb.1 hb.2.2.1

lemma syncBase_hour (e : SyncEnv) (o : SyncOptions) :
    (syncBase e o).hour = (normalizeReminderTime o.reminderHour o.reminderMinute).hour := by
  unfold syncBase
  simp only
  exact getNextReminderBase_hour e.now _ _

lemma sync_ok_shape (e : SyncEnv) (o : SyncOptions) (st : List ScheduledNotif)
    (hsupp : e.supported = true) (b : Bool) (st2 : List ScheduledNotif)
    (hr : (syncDailyReminderNotificationsAsync e o st).result = .ok (b, st2)) :
    st2 = st.filter (fun n => !isOwnReminder n) ∨
      st2 = (st.filter fun n => !isOwnReminder n) ++ scheduledBatch e o (syncBase e o) := by
  unfold syncDailyReminderNotificationsAsync at hr
  simp only [hsupp, Bool.not_true] at hr
  rw [if_neg (by simp)] at hr
  cases hconf : configureNotificationsAsync e with
  | error err =>
    rw [hconf] at hr
    simp at hr
  | ok u =>
    rw [hconf] at hr
    cases hcan : cancelDailyReminderNotificationsAsync e st with
    | error err =>
      rw [hcan] at hr
      simp at hr
    | ok st1 =>
      rw [hcan] at hr
      have hst1 : st1 = st.filter fun n => !isOwnReminder n := by
        unfold cancelDailyReminderNotificationsAsync at hcan
        cases hl : e.listOk <;> simp [hsupp, hl] at hcan
        exact hcan.symm
      subst hst1
      cases hen : o.enabled with
      | false =>
        simp [hen] at hr
        exact Or.inl hr.2.symm
      | true =>
        simp only [hen, Bool.not_true] at hr
        rw [if_neg (by simp)] at hr
        cases hperm : ensureNotificationsPermissionAsync e with
        | false =>
          simp [hperm] at hr
          exact Or.inl hr.2.symm
        | true =>
          simp only [hperm, Bool.not_true] at hr
          rw [if_neg (by simp)] at hr
          cases hfind : (List.range DAYS_TO_SCHEDULE).find? (fun offset => !e.scheduleOk offset) with
          | some offset =>
            rw [hfind] at hr
            simp at hr
          | none =>
            rw [hfind] at hr
            simp at hr
            exact Or.inr hr.2.symm

/-- C1: on a supported platform whose configure and cancel operations
succeed, a sync call with enabled = false resolves true and leaves zero
own-kind notifications scheduled, for every prior notification store and
every combination of the other parameters. -/
theorem sync_disable_returns_true_and_clears (e : SyncEnv) (o : SyncOptions)
    (st : List ScheduledNotif) (hsupp : e.supported = true) (hch : e.channelOk = true)
    (hlist : e.listOk = true) (hen : o.enabled = false) :
    ∃ st2, (syncDailyReminderNotificationsAsync e o st).result = .ok (true, st2) ∧
      st2.filter isOwnReminder = [] := by
  refine ⟨st.filter fun n => !isOwnReminder n, ?_, filter_own_of_filter_not_own st⟩
  rw [sync_disable_eq e o st hsupp hch hlist hen]

/-- Witness for C1: disabling with a stale own-kind and a foreign
notification present. -/
theorem sync_disable_returns_true_and_clears_witness :
    optsDisabled.enabled = false ∧
      ∃ st2,
        (syncDailyReminderNotificationsAsync envAllOk optsDisabled
            [staleOwnNotif, foreignNotif]).result = .ok (true, st2) ∧
          st2.filter isOwnReminder = [] :=
  ⟨rfl, sync_disable_returns_true_and_clears envAllOk optsDisabled
    [staleOwnNotif, foreignNotif] rfl rfl rfl rfl⟩

/-- C2 counterexample: on a healthy supported platform with permission
granted, when the individual schedule submissions fail the enabled sync call
rejects (an error crosses the public boundary) instead of resolving to a
boolean. -/
theorem sync_schedule_failure_rejects :
    (syncDailyReminderNotificationsAsync envScheduleFails optsEnabled []).result =
      .error (.scheduleSubmission 0) := rfl

/-- C2 (amended): when the platform operations (channel setup, cancel
enumeration, every individual schedule submission) succeed, the call always
resolves to a boolean — unsupported platform and denied permission resolve
to false rather than throwing; a failing platform operation, in particular a
failing individual schedule submission, instead propagates as a rejection
across the core's public boundary. -/
theorem sync_resolves_boolean_when_platform_ok (e : SyncEnv) (o : SyncOptions)
    (st : List ScheduledNotif) (hch : e.channelOk = true) (hlist : e.listOk = true)
    (hsched : ∀ offset, e.scheduleOk offset = true) :
    ∃ b st2, (syncDailyReminderNotificationsAsync e o st).result = .ok (b, st2) := by
  cases hsupp : e.supported with
  | false =>
    refine ⟨false, st, ?_⟩
    unfold syncDailyReminderNotificationsAsync
    simp [hsupp]
  | true =>
    cases hen : o.enabled with
    | false =>
      exact ⟨true, _, by rw [sync_disable_eq e o st hsupp hch hlist hen]⟩
    | true =>
      cases hperm : ensureNotificationsPermissionAsync e with
      | false =>
        refine ⟨false, st.filter fun n => !isOwnReminder n, ?_⟩
        unfold syncDailyReminderNotificationsAsync
        rw [configure_ok e hch, cancel_ok e st hsupp hlist]
        simp [hsupp, hen, hperm]
      | true =>
        exact ⟨true, _, by rw [sync_enable_eq e o st hsupp hch hlist hsched hperm hen]⟩

/-- Witness for C2 (amended) on the healthy environment. -/
theorem sync_resolves_boolean_when_platform_ok_witness :
    envAllOk.channelOk = true ∧ envAllOk.listOk = true ∧
      ∃ b st2,
        (syncDailyReminderNotificationsAsync envAllOk optsEnabled [foreignNotif]).result =
          .ok (b, st2) :=
  ⟨rfl, rfl, sync_resolves_boolean_when_platform_ok envAllOk optsEnabled [foreignNotif]
    rfl rfl (fun _ => rfl)⟩

/-- C3: on a supported, healthy platform with permission granted, an
enabled sync resolves true with exactly 365 own-kind notifications whose
triggers are the 365 consecutive calendar days at offsets 0..364 from the
computed base, every one strictly after the now observed during the call. -/
theorem sync_enable_schedules_365_future (e : SyncEnv) (o : SyncOptions)
    (st : List ScheduledNotif)
    (hsupp : e.supported = true) (hch : e.channelOk = true) (hlist : e.listOk = true)
    (hsched : ∀ offset, e.scheduleOk offset = true) (hgr : e.granted = true)
    (hen : o.enabled = true) (hnow : e.now.valid) :
    ∃ st2, (syncDailyReminderNotificationsAsync e o st).result = .ok (true, st2) ∧
      (st2.filter isOwnReminder).length = DAYS_TO_SCHEDULE ∧
      (∀ n ∈ st2.filter isOwnReminder, e.now.key < n.trigger.key) ∧
      (st2.filter isOwnReminder).map (fun n => n.trigger) =
        (List.range DAYS_TO_SCHEDULE).map (addDays (syncBase e o)) := by
  have hperm := ensurePermission_granted e hsupp hgr
  refine ⟨(st.filter fun n => !isOwnReminder n) ++ scheduledBatch e o (syncBase e o),
    ?_, ?_, ?_, ?_⟩
  · rw [sync_enable_eq e o st hsupp hch hlist hsched hperm hen]
  · rw [List.filter_append, filter_own_of_filter_not_own, List.nil_append,
      scheduledBatch_filter_own]
    unfold scheduledBatch
    rw [List.length_map, List.length_range]
  · intro n hn
    rw [List.filter_append, filter_own_of_filter_not_own, List.nil_append,
      scheduledBatch_filter_own] at hn
    obtain ⟨_, offset, _, hno⟩ := scheduledBatch_mem e o _ n hn
    subst hno
    rw [scheduledNotifAt_trigger, addDays_key]
    have hbase := syncBase_future e o hnow
    have : (0 : Int) ≤ (offset : Int) * 86400000 := by positivity
    omega
  · rw [List.filter_append, filter_own_of_filter_not_own, List.nil_append,
      scheduledBatch_filter_own]
    unfold scheduledBatch
    rw [List.map_map]
    rfl

/-- Witness for C3 on the healthy environment with a prior store. -/
theorem sync_enable_schedules_365_future_witness :
    envAllOk.granted = true ∧ envAllOk.now.valid ∧
      ∃ st2,
        (syncDailyReminderNotificationsAsync envAllOk optsEnabled
            [staleOwnNotif, foreignNotif]).result = .ok (true, st2) ∧
          (st2.filter isOwnReminder).length = DAYS_TO_SCHEDULE ∧
          (∀ n ∈ st2.filter isOwnReminder, envAllOk.now.key < n.trigger.key) ∧
          (st2.filter isOwnReminder).map (fun n => n.trigger) =
            (List.range DAYS_TO_SCHEDULE).map (addDays (syncBase envAllOk optsEnabled)) :=
  ⟨rfl, by decide, sync_enable_schedules_365_future envAllOk optsEnabled
    [staleOwnNotif, foreignNotif] rfl rfl rfl (fun _ => rfl) rfl rfl (by decide)⟩

/-- C4: after two consecutive enable calls that both settle to a boolean,
where the first ran on a healthy supported platform with permission granted
and the second ran on a supported platform, and the two calls use different
normalised reminder hours, no notification created by the first call is
still scheduled after the second call completes — every invocation past the
support check cancels all own-kind notifications before scheduling new
ones. -/
theorem sync_reenable_removes_stale
    (e1 e2 : SyncEnv) (o1 o2 : SyncOptions) (st0 st1 st2 : List ScheduledNotif)
    (b1 b2 : Bool)
    (_h1supp : e1.supported = true) (_h1ch : e1.channelOk = true)
    (_h1list : e1.listOk = true) (_h1sched : ∀ offset, e1.scheduleOk offset = true)
    (_h1gr : e1.granted = true) (_h1en : o1.enabled = true)
    (h2supp : e2.supported = true) (_h2en : o2.enabled = true)
    (_hr1 : (syncDailyReminderNotificationsAsync e1 o1 st0).result = .ok (b1, st1))
    (hr2 : (syncDailyReminderNotificationsAsync e2 o2 st1).result = .ok (b2, st2))
    (hhour : (normalizeReminderTime o1.reminderHour o1.reminderMinute).hour ≠
      (normalizeReminderTime o2.reminderHour o2.reminderMinute).hour) :
    ∀ n ∈ scheduledBatch e1 o1 (syncBase e1 o1), n ∉ st2 := by
  intro n hn hmem
  obtain ⟨hown, offset, _, hno⟩ := scheduledBatch_mem e1 o1 _ n hn
  have hnh : n.trigger.hour = (normalizeReminderTime o1.reminderHour o1.reminderMinute).hour := by
    rw [hno, scheduledNotifAt_trigger, addDays_hour, syncBase_hour]
  rcases sync_ok_shape e2 o2 st1 h2supp b2 st2 hr2 with h | h
  · subst h
    rw [List.mem_filter] at hmem
    rw [hown] at hmem
    simp at hmem
  · subst h
    rcases List.mem_append.mp hmem with hmem2 | hmem2
    · rw [List.mem_filter] at hmem2
      rw [hown] at hmem2
      simp at hmem2
    · obtain ⟨_, offset2, _, hno2⟩ := scheduledBatch_mem e2 o2 _ n hmem2
      have hnh2 : n.trigger.hour =
          (normalizeReminderTime o2.reminderHour o2.reminderMinute).hour := by
        rw [hno2, scheduledNotifAt_trigger, addDays_hour, syncBase_hour]
      exact hhour (hnh.symm.trans hnh2)

/-- Witness for C4: a 09:00 enable followed by a 10:00 enable on the healthy
environment; the first notification of the first batch is gone afterwards. -/
theorem sync_reenable_removes_stale_witness :
    optsEnabled.enabled = true ∧ optsEnabledLater.enabled = true ∧
      scheduledNotifAt envAllOk optsEnabled (syncBase envAllOk optsEnabled) 0 ∉
        ((([staleOwnNotif].filter fun n => !isOwnReminder n) ++
            scheduledBatch envAllOk optsEnabled (syncBase envAllOk optsEnabled)).filter
              fun n => !isOwnReminder n) ++
          scheduledBatch envAllOk optsEnabledLater (syncBase envAllOk optsEnabledLater) :=
  ⟨rfl, rfl,
    sync_reenable_removes_stale envAllOk envAllOk optsEnabled optsEnabledLater
      [staleOwnNotif] _ _ true true rfl rfl rfl (fun _ => rfl) rfl rfl rfl rfl
      (by rw [sync_enable_eq envAllOk optsEnabled [staleOwnNotif] rfl rfl rfl
        (fun _ => rfl) rfl rfl])
      (by rw [sync_enable_eq envAllOk optsEnabledLater _ rfl rfl rfl
        (fun _ => rfl) rfl rfl])
      (by decide)
      (scheduledNotifAt envAllOk optsEnabled (syncBase envAllOk optsEnabled) 0)
      (List.mem_map.mpr ⟨0, List.mem_range.mpr (by decide), rfl⟩)⟩

/-- C10: a sync call with enabled = false never invokes
`ensureNotificationsPermissionAsync`, so disabling reminders can never
trigger a permission prompt. -/
theorem sync_disable_skips_permission (e : SyncEnv) (o : SyncOptions)
    (st : List ScheduledNotif) (hen : o.enabled = false) :
    (syncDailyReminderNotificationsAsync e o st).permissionChecked = false := by
  unfold syncDailyReminderNotificationsAsync
  cases hsupp : e.supported with
  | false => simp [hsupp]
  | true =>
    simp only [hsupp, Bool.not_true]
    rw [if_neg (by simp)]
    cases hconf : configureNotificationsAsync e with
    | error err => simp
    | ok u =>
      cases hcan : cancelDailyReminderNotificationsAsync e st with
      | error err => simp
      | ok st1 => simp [hen]

/-- Witness for C10: disabling on the healthy environment with a stale
own-kind notification present never checks permission. -/
theorem sync_disable_skips_permission_witness :
    optsDisabled.enabled = false ∧
      (syncDailyReminderNotificationsAsync envAllOk optsDisabled
        [staleOwnNotif]).permissionChecked = false :=
  ⟨rfl, sync_disable_skips_permission envAllOk optsDisabled [staleOwnNotif] rfl⟩

/- Helper lemmas on the storage model. -/

lemma isAppData_reminder_fields (v : JVal) (h : isAppData v = true) :
    jOptValidReminderHour
        (((v.getField kSettings).getD .jnull).getField kDailyReminderHour) = true ∧
      jOptValidReminderMinute
        (((v.getField kSettings).getD .jnull).getField kDailyReminderMinute) = true := by
  unfold isAppData settingsChecksOk at h
  simp only [Bool.and_eq_true] at h
  tauto

lemma reminderHour_range (ov : Option JVal) (h : jOptValidReminderHour ov = true) :
    0 ≤ (jGetInt ov).getD DEFAULT_DAILY_REMINDER_HOUR ∧
      (jGetInt ov).getD DEFAULT_DAILY_REMINDER_HOUR ≤ 23 := by
  cases ov with
  | none => exact ⟨by decide, by decide⟩
  | some w =>
    unfold jOptValidReminderHour at h
    cases w with
    | jint n =>
      unfold jvalIsValidReminderHour at h
      simp only [decide_eq_true_eq] at h
      simpa [jGetInt] using h
    | jnull => simp [jvalIsValidReminderHour] at h
    | jbool b => simp [jvalIsValidReminderHour] at h
    | jnum => simp [jvalIsValidReminderHour] at h
    | jstr s => simp [jvalIsValidReminderHour] at h
    | jarr xs => simp [jvalIsValidReminderHour] at h
    | jobj fs => simp [jvalIsValidReminderHour] at h

lemma reminderMinute_range (ov : Option JVal) (h : jOptValidReminderMinute ov = true) :
    0 ≤ (jGetInt ov).getD DEFAULT_DAILY_REMINDER_MINUTE ∧
      (jGetInt ov).getD DEFAULT_DAILY_REMINDER_MINUTE ≤ 59 := by
  cases ov with
  | none => exact ⟨by decide, by decide⟩
  | some w =>
    unfold jOptValidReminderMinute at h
    cases w with
    | jint n =>
      unfold jvalIsValidReminderMinute at h
      simp only [decide_eq_true_eq] at h
      simpa [jGetInt] using h
    | jnull => simp [jvalIsValidReminderMinute] at h
    | jbool b => simp [jvalIsValidReminderMinute] at h
    | jnum => simp [jvalIsValidReminderMinute] at h
    | jstr s => simp [jvalIsValidReminderMinute] at h
    | jarr xs => simp [jvalIsValidReminderMinute] at h
    | jobj fs => simp [jvalIsValidReminderMinute] at h

lemma extractAppData_hour (v : JVal) :
    (extractAppData v).settings.dailyReminderHour =
      (jGetInt (((v.getField kSettings).getD .jnull).getField kDailyReminderHour)).getD
        DEFAULT_DAILY_REMINDER_HOUR := rfl

lemma extractAppData_minute (v : JVal) :
    (extractAppData v).settings.dailyReminderMinute =
      (jGetInt (((v.getField kSettings).getD .jnull).getField kDailyReminderMinute)).getD
        DEFAULT_DAILY_REMINDER_MINUTE := rfl

lemma extractAppData_enabled (v : JVal) :
    (extractAppData v).settings.dailyReminderEnabled =
      (jGetBool (((v.getField kSettings).getD .jnull).getField kDailyReminderEnabled)).getD
        false := rfl

/-- C9: loadAppData returns none (never a partial object) on a missing
value, a non-JSON value, or a value failing structural validation; every
non-null result has an integer dailyReminderHour in 0..23 and an integer
dailyReminderMinute in 0..59 (integrality and boolean-ness by the result
type); and absent settings fields come back as the defaults 9, 0 and
false. -/
theorem loadAppData_spec :
    loadAppData .missing = none ∧
    loadAppData .notJson = none ∧
    (∀ v, isAppData v = false → loadAppData (.parsed v) = none) ∧
    (∀ sv d, loadAppData sv = some d →
      0 ≤ d.settings.dailyReminderHour ∧ d.settings.dailyReminderHour ≤ 23 ∧
      0 ≤ d.settings.dailyReminderMinute ∧ d.settings.dailyReminderMinute ≤ 59) ∧
    (∀ v d, loadAppData (.parsed v) = some d →
      (((v.getField kSettings).getD .jnull).getField kDailyReminderHour = none →
        d.settings.dailyReminderHour = DEFAULT_DAILY_REMINDER_HOUR) ∧
      (((v.getField kSettings).getD .jnull).getField kDailyReminderMinute = none →
        d.settings.dailyReminderMinute = DEFAULT_DAILY_REMINDER_MINUTE) ∧
      (((v.getField kSettings).getD .jnull).getField kDailyReminderEnabled = none →
        d.settings.dailyReminderEnabled = false)) := by
  have hsome : ∀ v d, loadAppData (.parsed v) = some d →
      isAppData v = true ∧ d = extractAppData v := by
    intro v d hv
    simp only [loadAppData] at hv
    cases hval : isAppData v with
    | false =>
      rw [hval] at hv
      simp at hv
    | true =>
      rw [hval] at hv
      simp at hv
      exact ⟨rfl, hv.symm⟩
  refine ⟨rfl, rfl, ?_, ?_, ?_⟩
  · intro v hval
    simp only [loadAppData]
    rw [hval]
    rfl
  · intro sv d hsv
    cases sv with
    | missing => simp [loadAppData] at hsv
    | notJson => simp [loadAppData] at hsv
    | parsed v =>
      obtain ⟨hval, hd⟩ := hsome v d hsv
      subst hd
      obtain ⟨hh, hm⟩ := isAppData_reminder_fields v hval
      have h1 := reminderHour_range _ hh
      have h2 := reminderMinute_range _ hm
      rw [extractAppData_hour, extractAppData_minute]
      exact ⟨h1.1, h1.2, h2.1, h2.2⟩
  · intro v d hv
    obtain ⟨hval, hd⟩ := hsome v d hv
    subst hd
    refine ⟨?_, ?_, ?_⟩
    · intro habs
      rw [extractAppData_hour, habs]
      rfl
    · intro habs
      rw [extractAppData_minute, habs]
      rfl
    · intro habs
      rw [extractAppData_enabled, habs]
      rfl

/-- Witness for C9: a validated stored object omitting every defaulted
settings field loads with the default reminder hour. -/
theorem loadAppData_spec_witness :
    loadAppData (StoredValue.parsed sampleAppJson) = some (extractAppData sampleAppJson) ∧
      0 ≤ (extractAppData sampleAppJson).settings.dailyReminderHour ∧
      (extractAppData sampleAppJson).settings.dailyReminderHour =
        DEFAULT_DAILY_REMINDER_HOUR :=
  ⟨rfl,
    (loadAppData_spec.2.2.2.1 (StoredValue.parsed sampleAppJson)
      (extractAppData sampleAppJson) rfl).1,
    (loadAppData_spec.2.2.2.2 sampleAppJson (extractAppData sampleAppJson) rfl).1 rfl⟩

end CleanCount
